import Mathlib

/-!
# Verification of the fast-floats crate (src/lib.rs)

The crate defines two wrapper types, FF32 around f32 and FF64 around f64,
generated by the macro float_wrapper!.  The five binary arithmetic operators
are routed by impl_op! to the relaxed ("fast-math") compiler intrinsics
fadd_fast, fsub_fast, fmul_fast, fdiv_fast and frem_fast; the
combined-assignment operators come from impl_assignop!, formatting from
impl_format!, and PartialEq, PartialOrd and Default are derived on the
single-field tuple structs.

Both widths are produced by the same macros, so the wrapper is embedded once,
parameterised by a model M : FloatOps of the inner scalar type together with
the external standard-library and intrinsic operations the crate delegates
to.  FF32 corresponds to FF applied to a model of f32, and FF64 to a model of
f64.  The carrier of the model stands for the set of representable bit
patterns, so distinct NaN payloads may be distinct carrier elements and
equality of carrier elements is bit-for-bit identity.

The relaxed intrinsics are unsafe in Rust: their safety contract requires
finite operands (the crate documentation points to the LLVM fast-math flags,
whose nnan and ninf flags make NaN and infinite values poison).  They are
therefore modelled as Option-valued functions: none models a call whose
precondition is violated, i.e. undefined behaviour.
-/

/-- Model of the inner floating-point scalar type (f32 or f64) and of every
external operation the crate delegates to.  The fields add, sub, mul, div,
rem, neg, round, beq (PartialEq), pcmp (PartialOrd partial_cmp), default and
the four formatters are the ordinary strict IEEE operations of the scalar
type; fadd_fast .. frem_fast are the relaxed intrinsics from
std::intrinsics, Option-valued because they are unsafe with a finiteness
precondition (none = precondition violated, undefined behaviour).  posZero
is the scalar +0.0, used only to state properties.  FmtState models the
formatter argument threaded through the fmt trait methods. -/
structure FloatOps where
  Carrier : Type
  FmtState : Type
  add : Carrier → Carrier → Carrier
  sub : Carrier → Carrier → Carrier
  mul : Carrier → Carrier → Carrier
  div : Carrier → Carrier → Carrier
  rem : Carrier → Carrier → Carrier
  neg : Carrier → Carrier
  round : Carrier → Carrier
  fadd_fast : Carrier → Carrier → Option Carrier
  fsub_fast : Carrier → Carrier → Option Carrier
  fmul_fast : Carrier → Carrier → Option Carrier
  fdiv_fast : Carrier → Carrier → Option Carrier
  frem_fast : Carrier → Carrier → Option Carrier
  isFinite : Carrier → Bool
  beq : Carrier → Carrier → Bool
  pcmp : Carrier → Carrier → Option Ordering
  default : Carrier
  posZero : Carrier
  fmtDisplay : Carrier → FmtState → String
  fmtDebug : Carrier → FmtState → String
  fmtLowerExp : Carrier → FmtState → String
  fmtUpperExp : Carrier → FmtState → String

/-- The wrapper type produced by float_wrapper! (lib.rs lines 26-73):
a single-field tuple struct around the scalar, repr(transparent). -/
structure FF (M : FloatOps) where
  val : M.Carrier

/-- Method get (lib.rs lines 32-38): return the inner value. -/
def FF.get {M : FloatOps} (x : FF M) : M.Carrier := x.val

/-- Trait impl From of the scalar for the wrapper (lib.rs lines 40-45). -/
def FF.fromFloat (M : FloatOps) (other : M.Carrier) : FF M := ⟨other⟩

/-- Trait impl From of the wrapper for the scalar (lib.rs lines 47-52):
defined as other.get(). -/
def FF.toFloat {M : FloatOps} (other : FF M) : M.Carrier := other.get

/-- Neg impl (lib.rs lines 54-61): self.0.neg().into() - plain strict
negation of the inner value, no relaxed intrinsic involved. -/
def FF.neg {M : FloatOps} (x : FF M) : FF M := ⟨M.neg x.val⟩

/-- Method round (lib.rs lines 63-68): self.0.round().into() - plain
rounding of the inner value. -/
def FF.round {M : FloatOps} (x : FF M) : FF M := ⟨M.round x.val⟩

/-! The impl_op! macro (lib.rs lines 75-132), instantiated at lines 158-164
for Add/fadd_fast, Sub/fsub_fast, Mul/fmul_fast, Div/fdiv_fast and
Rem/frem_fast.  For each operator there are three operand shapes:
wrapper (+) scalar, which calls the unsafe intrinsic on (self.0, rhs);
scalar (+) wrapper, defined as FF32(self).op(rhs.0); and
wrapper (+) wrapper, defined as self.op(rhs.0).  The Option result
propagates the intrinsic precondition. -/

/-- Add of a scalar right-hand side: FF32(fadd_fast(self.0, rhs)). -/
def FF.addF {M : FloatOps} (x : FF M) (rhs : M.Carrier) : Option (FF M) :=
  (M.fadd_fast x.val rhs).map FF.mk

/-- Add with the wrapper on the right: FF32(self).add(rhs.0). -/
def floatAddFF {M : FloatOps} (l : M.Carrier) (rhs : FF M) : Option (FF M) :=
  (FF.mk l).addF rhs.val

/-- Add of two wrappers: self.add(rhs.0). -/
def FF.add {M : FloatOps} (x : FF M) (rhs : FF M) : Option (FF M) :=
  x.addF rhs.val

/-- Sub of a scalar right-hand side: FF32(fsub_fast(self.0, rhs)). -/
def FF.subF {M : FloatOps} (x : FF M) (rhs : M.Carrier) : Option (FF M) :=
  (M.fsub_fast x.val rhs).map FF.mk

/-- Sub with the wrapper on the right: FF32(self).sub(rhs.0). -/
def floatSubFF {M : FloatOps} (l : M.Carrier) (rhs : FF M) : Option (FF M) :=
  (FF.mk l).subF rhs.val

/-- Sub of two wrappers: self.sub(rhs.0). -/
def FF.sub {M : FloatOps} (x : FF M) (rhs : FF M) : Option (FF M) :=
  x.subF rhs.val

/-- Mul of a scalar right-hand side: FF32(fmul_fast(self.0, rhs)). -/
def FF.mulF {M : FloatOps} (x : FF M) (rhs : M.Carrier) : Option (FF M) :=
  (M.fmul_fast x.val rhs).map FF.mk

/-- Mul with the wrapper on the right: FF32(self).mul(rhs.0). -/
def floatMulFF {M : FloatOps} (l : M.Carrier) (rhs : FF M) : Option (FF M) :=
  (FF.mk l).mulF rhs.val

/-- Mul of two wrappers: self.mul(rhs.0). -/
def FF.mul {M : FloatOps} (x : FF M) (rhs : FF M) : Option (FF M) :=
  x.mulF rhs.val

/-- Div of a scalar right-hand side: FF32(fdiv_fast(self.0, rhs)). -/
def FF.divF {M : FloatOps} (x : FF M) (rhs : M.Carrier) : Option (FF M) :=
  (M.fdiv_fast x.val rhs).map FF.mk

/-- Div with the wrapper on the right: FF32(self).div(rhs.0). -/
def floatDivFF {M : FloatOps} (l : M.Carrier) (rhs : FF M) : Option (FF M) :=
  (FF.mk l).divF rhs.val

/-- Div of two wrappers: self.div(rhs.0). -/
def FF.div {M : FloatOps} (x : FF M) (rhs : FF M) : Option (FF M) :=
  x.divF rhs.val

/-- Rem of a scalar right-hand side: FF32(frem_fast(self.0, rhs)). -/
def FF.remF {M : FloatOps} (x : FF M) (rhs : M.Carrier) : Option (FF M) :=
  (M.frem_fast x.val rhs).map FF.mk

/-- Rem with the wrapper on the right: FF32(self).rem(rhs.0). -/
def floatRemFF {M : FloatOps} (l : M.Carrier) (rhs : FF M) : Option (FF M) :=
  (FF.mk l).remF rhs.val

/-- Rem of two wrappers: self.rem(rhs.0). -/
def FF.rem {M : FloatOps} (x : FF M) (rhs : FF M) : Option (FF M) :=
  x.remF rhs.val

/-! The impl_assignop! macro (lib.rs lines 134-156), instantiated at lines
166-172 for AddAssign, SubAssign, MulAssign, DivAssign, RemAssign.  The
macro body is literally *self = *self + rhs for EVERY operator - the
intrinsic argument of the macro is never used, and the where-clause demands
Self: Add of Rhs in all five instantiations.  The embedding reproduces that
text faithfully: every assign operator delegates to the Add implementation.
The generic Rhs ranges over the two types with an Add impl, the scalar and
the wrapper itself, giving two shapes per operator. -/

/-- AddAssign with scalar right-hand side: *self = *self + rhs. -/
def FF.add_assignF {M : FloatOps} (x : FF M) (rhs : M.Carrier) : Option (FF M) :=
  x.addF rhs

/-- AddAssign with wrapper right-hand side: *self = *self + rhs. -/
def FF.add_assign {M : FloatOps} (x : FF M) (rhs : FF M) : Option (FF M) :=
  x.add rhs

/-- SubAssign with scalar right-hand side; the macro body is
*self = *self + rhs (sic: it adds). -/
def FF.sub_assignF {M : FloatOps} (x : FF M) (rhs : M.Carrier) : Option (FF M) :=
  x.addF rhs

/-- SubAssign with wrapper right-hand side; the macro body is
*self = *self + rhs (sic: it adds). -/
def FF.sub_assign {M : FloatOps} (x : FF M) (rhs : FF M) : Option (FF M) :=
  x.add rhs

/-- MulAssign with scalar right-hand side; the macro body is
*self = *self + rhs (sic: it adds). -/
def FF.mul_assignF {M : FloatOps} (x : FF M) (rhs : M.Carrier) : Option (FF M) :=
  x.addF rhs

/-- MulAssign with wrapper right-hand side; the macro body is
*self = *self + rhs (sic: it adds). -/
def FF.mul_assign {M : FloatOps} (x : FF M) (rhs : FF M) : Option (FF M) :=
  x.add rhs

/-- DivAssign with scalar right-hand side; the macro body is
*self = *self + rhs (sic: it adds). -/
def FF.div_assignF {M : FloatOps} (x : FF M) (rhs : M.Carrier) : Option (FF M) :=
  x.addF rhs

/-- DivAssign with wrapper right-hand side; the macro body is
*self = *self + rhs (sic: it adds). -/
def FF.div_assign {M : FloatOps} (x : FF M) (rhs : FF M) : Option (FF M) :=
  x.add rhs

/-- RemAssign with scalar right-hand side; the macro body is
*self = *self + rhs (sic: it adds). -/
def FF.rem_assignF {M : FloatOps} (x : FF M) (rhs : M.Carrier) : Option (FF M) :=
  x.addF rhs

/-- RemAssign with wrapper right-hand side; the macro body is
*self = *self + rhs (sic: it adds). -/
def FF.rem_assign {M : FloatOps} (x : FF M) (rhs : FF M) : Option (FF M) :=
  x.add rhs

/-- Derived PartialEq on the single-field tuple struct (lib.rs line 28):
compares the inner values with the scalar IEEE equality. -/
def FF.beq {M : FloatOps} (x y : FF M) : Bool := M.beq x.val y.val

/-- Derived PartialOrd on the single-field tuple struct (lib.rs line 28):
partial_cmp delegates to the partial_cmp of the inner values. -/
def FF.pcmp {M : FloatOps} (x y : FF M) : Option Ordering := M.pcmp x.val y.val

/-- Derived Default on the single-field tuple struct (lib.rs line 28):
wraps the default value of the inner scalar type. -/
def FF.default (M : FloatOps) : FF M := ⟨M.default⟩

/-! The impl_format! macro (lib.rs lines 175-193), instantiated for Debug,
Display, LowerExp and UpperExp: each fmt method is self.0.fmt(f), passing
the formatter through unchanged. -/

/-- Display formatting: self.0.fmt(f). -/
def FF.fmtDisplay {M : FloatOps} (x : FF M) (f : M.FmtState) : String :=
  M.fmtDisplay x.val f

/-- Debug formatting: self.0.fmt(f). -/
def FF.fmtDebug {M : FloatOps} (x : FF M) (f : M.FmtState) : String :=
  M.fmtDebug x.val f

/-- LowerExp (scientific lowercase) formatting: self.0.fmt(f). -/
def FF.fmtLowerExp {M : FloatOps} (x : FF M) (f : M.FmtState) : String :=
  M.fmtLowerExp x.val f

/-- UpperExp (scientific uppercase) formatting: self.0.fmt(f). -/
def FF.fmtUpperExp {M : FloatOps} (x : FF M) (f : M.FmtState) : String :=
  M.fmtUpperExp x.val f

/-- Contract of the relaxed intrinsics on finite operands, as stated by the
spec: for a single isolated operation on finite operands the relaxed
intrinsic is defined and produces the strict IEEE result (relaxation may
diverge only for non-finite operands or under reassociation, which a single
call does not exercise).  The intrinsics live in std, outside this
repository, so this contract is a hypothesis of the theorems that need it. -/
def FloatOps.FastAgreesOnFinite (M : FloatOps) : Prop :=
  ∀ a b : M.Carrier, M.isFinite a = true → M.isFinite b = true →
    M.fadd_fast a b = some (M.add a b) ∧
    M.fsub_fast a b = some (M.sub a b) ∧
    M.fmul_fast a b = some (M.mul a b) ∧
    M.fdiv_fast a b = some (M.div a b) ∧
    M.frem_fast a b = some (M.rem a b)

/-! A small concrete, fully decidable instantiation of FloatOps, used to
evaluate the theorems on explicit inputs.  Toy keeps the features of an IEEE
scalar that the statements exercise: a NaN, two infinities, a negative zero
distinct from positive zero as a bit pattern but equal under IEEE equality,
and exact integer-valued finite numbers. -/

/-- Concrete carrier of bit patterns: nan, the two infinities, negative
zero, and integer-valued finite numbers (num 0 is positive zero). -/
inductive Toy where
  | nan : Toy
  | pinf : Toy
  | ninf : Toy
  | nzero : Toy
  | num : Int → Toy
deriving DecidableEq

/-- Finiteness classification of the toy scalar. -/
def Toy.isFinite : Toy → Bool
  | .nan => false
  | .pinf => false
  | .ninf => false
  | .nzero => true
  | .num _ => true

/-- Numeric value of a finite toy scalar (negative zero counts as 0). -/
def Toy.toInt : Toy → Int
  | .num q => q
  | _ => 0

/-- Strict toy addition on finite values. -/
def Toy.add (a b : Toy) : Toy := .num (a.toInt + b.toInt)

/-- Strict toy subtraction on finite values. -/
def Toy.sub (a b : Toy) : Toy := .num (a.toInt - b.toInt)

/-- Strict toy multiplication on finite values. -/
def Toy.mul (a b : Toy) : Toy := .num (a.toInt * b.toInt)

/-- Strict toy division on finite values (integer division stands in for
the exact IEEE quotient; only concrete evaluations use it). -/
def Toy.div (a b : Toy) : Toy := .num (a.toInt / b.toInt)

/-- Strict toy remainder on finite values. -/
def Toy.rem (a b : Toy) : Toy := .num (a.toInt % b.toInt)

/-- Strict toy negation: flips the sign, keeps nan as nan. -/
def Toy.neg : Toy → Toy
  | .nan => .nan
  | .pinf => .ninf
  | .ninf => .pinf
  | .nzero => .num 0
  | .num q => if q = 0 then .nzero else .num (-q)

/-- Toy rounding: finite values are already integral, so it is the
identity. -/
def Toy.round (a : Toy) : Toy := a

/-- Toy model of a relaxed intrinsic: defined exactly when both operands are
finite (the documented safety precondition of the std intrinsics), and then
equal to the given strict operation; none models undefined behaviour. -/
def Toy.fastOp (f : Toy → Toy → Toy) (a b : Toy) : Option Toy :=
  if a.isFinite && b.isFinite then some (f a b) else none

/-- Toy IEEE equality: nan is unequal to everything, negative zero equals
positive zero, and finite numbers compare by value. -/
def Toy.beq (a b : Toy) : Bool :=
  match a, b with
  | .nan, _ => false
  | _, .nan => false
  | .pinf, .pinf => true
  | .ninf, .ninf => true
  | .nzero, .nzero => true
  | .nzero, .num q => q == 0
  | .num q, .nzero => q == 0
  | .num p, .num q => p == q
  | _, _ => false

/-- Toy IEEE partial comparison: none whenever an operand is nan, otherwise
total order with the infinities at the ends. -/
def Toy.pcmp (a b : Toy) : Option Ordering :=
  match a, b with
  | .nan, _ => none
  | _, .nan => none
  | .pinf, .pinf => some .eq
  | .pinf, _ => some .gt
  | _, .pinf => some .lt
  | .ninf, .ninf => some .eq
  | .ninf, _ => some .lt
  | _, .ninf => some .gt
  | a, b => some (compare a.toInt b.toInt)

/-- The toy instantiation of the scalar model.  The default value is
positive zero, as for f32 and f64. -/
@[reducible] def ToyOps : FloatOps where
  Carrier := Toy
  FmtState := Unit
  add := Toy.add
  sub := Toy.sub
  mul := Toy.mul
  div := Toy.div
  rem := Toy.rem
  neg := Toy.neg
  round := Toy.round
  fadd_fast := Toy.fastOp Toy.add
  fsub_fast := Toy.fastOp Toy.sub
  fmul_fast := Toy.fastOp Toy.mul
  fdiv_fast := Toy.fastOp Toy.div
  frem_fast := Toy.fastOp Toy.rem
  isFinite := Toy.isFinite
  beq := Toy.beq
  pcmp := Toy.pcmp
  default := Toy.num 0
  posZero := Toy.num 0
  fmtDisplay := fun _ _ => "0"
  fmtDebug := fun _ _ => "0"
  fmtLowerExp := fun _ _ => "0e0"
  fmtUpperExp := fun _ _ => "0E0"

instance : DecidableEq (FF ToyOps) := fun x y =>
  decidable_of_iff (x.val = y.val) (by cases x; cases y; simp)

/-- The toy intrinsics satisfy the finite-operand contract. -/
theorem toyFast_agrees : ToyOps.FastAgreesOnFinite := by
  intro a b ha hb
  have ha2 : Toy.isFinite a = true := ha
  have hb2 : Toy.isFinite b = true := hb
  refine ⟨?_, ?_, ?_, ?_, ?_⟩ <;>
    simp [ToyOps, Toy.fastOp, ha2, hb2]

/-! ## Claim theorems -/

/-- C2: for every representable bit pattern x of either width, including any
NaN payload and sign, the infinities and negative zero, extracting after
wrapping returns x unchanged bit-for-bit: both get and the From conversion
back to the scalar invert fromFloat. -/
theorem roundtrip_get_from (M : FloatOps) (x : M.Carrier) :
    (FF.fromFloat M x).get = x ∧ (FF.fromFloat M x).toFloat = x :=
  ⟨rfl, rfl⟩

/-- C5: unary negation of the wrapper is exactly the strict IEEE negation of
the inner value, for every value including NaN and the infinities: the Neg
impl delegates to the plain neg of the scalar (no relaxed intrinsic appears
in FF.neg), so -wrap(a) is bit-for-bit wrap(-a). -/
theorem neg_strict (M : FloatOps) (a : M.Carrier) :
    FF.neg (FF.fromFloat M a) = FF.fromFloat M (M.neg a) ∧
    (FF.neg (FF.fromFloat M a)).get = M.neg a :=
  ⟨rfl, rfl⟩

/-- C6: for every value x of either width, round() on the wrapper is the
wrapper of the plain, non-relaxed rounding of the inner value: no relaxed
intrinsic appears in FF.round. -/
theorem round_plain (M : FloatOps) (x : M.Carrier) :
    (FF.round (FF.fromFloat M x)).get = M.round x ∧
    FF.round (FF.fromFloat M x) = FF.fromFloat M (M.round x) :=
  ⟨rfl, rfl⟩

/-- C7: for every value a of either width, every formatter state, and each
of the four formatting modes (Display, Debug, LowerExp, UpperExp),
formatting the wrapper produces exactly the output of formatting the inner
plain value. -/
theorem fmt_delegates (M : FloatOps) (a : M.Carrier) (f : M.FmtState) :
    FF.fmtDisplay (FF.fromFloat M a) f = M.fmtDisplay a f ∧
    FF.fmtDebug (FF.fromFloat M a) f = M.fmtDebug a f ∧
    FF.fmtLowerExp (FF.fromFloat M a) f = M.fmtLowerExp a f ∧
    FF.fmtUpperExp (FF.fromFloat M a) f = M.fmtUpperExp a f :=
  ⟨rfl, rfl, rfl, rfl⟩

/-- C8: equality and ordering on the wrappers return exactly the IEEE
comparison of the inner values (first two conjuncts, for all values a b);
consequently, for any n whose IEEE comparison behaves like NaN (unequal to
itself, unordered against a value x) the wrapper of n does too, and wrappers
of positive and negative zero are equal whenever the inner values are. -/
theorem cmp_delegates (M : FloatOps) (a b n x pz nz : M.Carrier)
    (hnn : M.beq n n = false)
    (hcmp1 : M.pcmp n x = none) (hcmp2 : M.pcmp x n = none)
    (hz : M.beq pz nz = true) :
    FF.beq (FF.fromFloat M a) (FF.fromFloat M b) = M.beq a b ∧
    FF.pcmp (FF.fromFloat M a) (FF.fromFloat M b) = M.pcmp a b ∧
    FF.beq (FF.fromFloat M n) (FF.fromFloat M n) = false ∧
    FF.pcmp (FF.fromFloat M n) (FF.fromFloat M x) = none ∧
    FF.pcmp (FF.fromFloat M x) (FF.fromFloat M n) = none ∧
    FF.beq (FF.fromFloat M pz) (FF.fromFloat M nz) = true :=
  ⟨rfl, rfl, hnn, hcmp1, hcmp2, hz⟩

/-- Witness for C8: the comparison theorem evaluated on the toy model with
n the toy NaN, x positive infinity, and the two zeros. -/
theorem cmp_delegates_witness :
    (ToyOps.beq Toy.nan Toy.nan = false ∧
     ToyOps.pcmp Toy.nan Toy.pinf = none ∧
     ToyOps.pcmp Toy.pinf Toy.nan = none ∧
     ToyOps.beq (Toy.num 0) Toy.nzero = true) ∧
    (FF.beq (FF.fromFloat ToyOps (Toy.num 1)) (FF.fromFloat ToyOps (Toy.num 2)) =
       ToyOps.beq (Toy.num 1) (Toy.num 2) ∧
     FF.pcmp (FF.fromFloat ToyOps (Toy.num 1)) (FF.fromFloat ToyOps (Toy.num 2)) =
       ToyOps.pcmp (Toy.num 1) (Toy.num 2) ∧
     FF.beq (FF.fromFloat ToyOps Toy.nan) (FF.fromFloat ToyOps Toy.nan) = false ∧
     FF.pcmp (FF.fromFloat ToyOps Toy.nan) (FF.fromFloat ToyOps Toy.pinf) = none ∧
     FF.pcmp (FF.fromFloat ToyOps Toy.pinf) (FF.fromFloat ToyOps Toy.nan) = none ∧
     FF.beq (FF.fromFloat ToyOps (Toy.num 0)) (FF.fromFloat ToyOps Toy.nzero) = true) :=
  ⟨⟨by decide, by decide, by decide, by decide⟩,
   cmp_delegates ToyOps (Toy.num 1) (Toy.num 2) Toy.nan Toy.pinf (Toy.num 0) Toy.nzero
     (by decide) (by decide) (by decide) (by decide)⟩

/-- C10: the derived Default of either wrapper holds the default value of
the inner scalar; given that the scalar default is positive zero (as it is
for f32 and f64), get of the default wrapper is positive zero. -/
theorem default_is_pos_zero (M : FloatOps) (h : M.default = M.posZero) :
    (FF.default M).get = M.posZero :=
  h

/-- Witness for C10 on the toy model, whose default is positive zero. -/
theorem default_is_pos_zero_witness :
    ToyOps.default = ToyOps.posZero ∧ (FF.default ToyOps).get = ToyOps.posZero :=
  ⟨rfl, default_is_pos_zero ToyOps rfl⟩

/-- C3: for all finite operands a and b of the same width and each of the
five operators, the relaxed wrapper operator applied to wrap(a) and wrap(b)
is defined and returns exactly the wrapper of the strict IEEE result,
assuming the relaxed intrinsics meet their finite-operand contract (they
live in std, outside this repository). -/
theorem finite_ops_match_ieee (M : FloatOps) (hM : M.FastAgreesOnFinite)
    (a b : M.Carrier) (ha : M.isFinite a = true) (hb : M.isFinite b = true) :
    FF.add (FF.fromFloat M a) (FF.fromFloat M b) = some (FF.fromFloat M (M.add a b)) ∧
    FF.sub (FF.fromFloat M a) (FF.fromFloat M b) = some (FF.fromFloat M (M.sub a b)) ∧
    FF.mul (FF.fromFloat M a) (FF.fromFloat M b) = some (FF.fromFloat M (M.mul a b)) ∧
    FF.div (FF.fromFloat M a) (FF.fromFloat M b) = some (FF.fromFloat M (M.div a b)) ∧
    FF.rem (FF.fromFloat M a) (FF.fromFloat M b) = some (FF.fromFloat M (M.rem a b)) := by
  obtain ⟨h1, h2, h3, h4, h5⟩ := hM a b ha hb
  refine ⟨?_, ?_, ?_, ?_, ?_⟩ <;>
    simp [FF.add, FF.addF, FF.sub, FF.subF, FF.mul, FF.mulF, FF.div, FF.divF,
      FF.rem, FF.remF, FF.fromFloat, h1, h2, h3, h4, h5]

/-- Witness for C3: the finite-operand theorem evaluated on the toy model
at the operands 2 and 1. -/
theorem finite_ops_match_ieee_witness :
    (ToyOps.FastAgreesOnFinite ∧
     ToyOps.isFinite (Toy.num 2) = true ∧ ToyOps.isFinite (Toy.num 1) = true) ∧
    (FF.add (FF.fromFloat ToyOps (Toy.num 2)) (FF.fromFloat ToyOps (Toy.num 1)) =
       some (FF.fromFloat ToyOps (ToyOps.add (Toy.num 2) (Toy.num 1))) ∧
     FF.sub (FF.fromFloat ToyOps (Toy.num 2)) (FF.fromFloat ToyOps (Toy.num 1)) =
       some (FF.fromFloat ToyOps (ToyOps.sub (Toy.num 2) (Toy.num 1))) ∧
     FF.mul (FF.fromFloat ToyOps (Toy.num 2)) (FF.fromFloat ToyOps (Toy.num 1)) =
       some (FF.fromFloat ToyOps (ToyOps.mul (Toy.num 2) (Toy.num 1))) ∧
     FF.div (FF.fromFloat ToyOps (Toy.num 2)) (FF.fromFloat ToyOps (Toy.num 1)) =
       some (FF.fromFloat ToyOps (ToyOps.div (Toy.num 2) (Toy.num 1))) ∧
     FF.rem (FF.fromFloat ToyOps (Toy.num 2)) (FF.fromFloat ToyOps (Toy.num 1)) =
       some (FF.fromFloat ToyOps (ToyOps.rem (Toy.num 2) (Toy.num 1)))) :=
  ⟨⟨toyFast_agrees, by decide, by decide⟩,
   finite_ops_match_ieee ToyOps toyFast_agrees (Toy.num 2) (Toy.num 1)
     (by decide) (by decide)⟩

/-- C4: for each operator and all finite operands a and b, the three operand
shapes agree - wrapper op scalar, scalar op wrapper, and wrapper op wrapper
return the same result - and the result is the intrinsic applied with the
left operand on the left (operand order preserved). -/
theorem mixed_shapes_agree (M : FloatOps) (a b : M.Carrier)
    (ha : M.isFinite a = true) (hb : M.isFinite b = true) :
    (FF.addF (FF.fromFloat M a) b = FF.add (FF.fromFloat M a) (FF.fromFloat M b) ∧
     floatAddFF a (FF.fromFloat M b) = FF.add (FF.fromFloat M a) (FF.fromFloat M b) ∧
     FF.add (FF.fromFloat M a) (FF.fromFloat M b) = (M.fadd_fast a b).map FF.mk) ∧
    (FF.subF (FF.fromFloat M a) b = FF.sub (FF.fromFloat M a) (FF.fromFloat M b) ∧
     floatSubFF a (FF.fromFloat M b) = FF.sub (FF.fromFloat M a) (FF.fromFloat M b) ∧
     FF.sub (FF.fromFloat M a) (FF.fromFloat M b) = (M.fsub_fast a b).map FF.mk) ∧
    (FF.mulF (FF.fromFloat M a) b = FF.mul (FF.fromFloat M a) (FF.fromFloat M b) ∧
     floatMulFF a (FF.fromFloat M b) = FF.mul (FF.fromFloat M a) (FF.fromFloat M b) ∧
     FF.mul (FF.fromFloat M a) (FF.fromFloat M b) = (M.fmul_fast a b).map FF.mk) ∧
    (FF.divF (FF.fromFloat M a) b = FF.div (FF.fromFloat M a) (FF.fromFloat M b) ∧
     floatDivFF a (FF.fromFloat M b) = FF.div (FF.fromFloat M a) (FF.fromFloat M b) ∧
     FF.div (FF.fromFloat M a) (FF.fromFloat M b) = (M.fdiv_fast a b).map FF.mk) ∧
    (FF.remF (FF.fromFloat M a) b = FF.rem (FF.fromFloat M a) (FF.fromFloat M b) ∧
     floatRemFF a (FF.fromFloat M b) = FF.rem (FF.fromFloat M a) (FF.fromFloat M b) ∧
     FF.rem (FF.fromFloat M a) (FF.fromFloat M b) = (M.frem_fast a b).map FF.mk) :=
  ⟨⟨rfl, rfl, rfl⟩, ⟨rfl, rfl, rfl⟩, ⟨rfl, rfl, rfl⟩, ⟨rfl, rfl, rfl⟩, ⟨rfl, rfl, rfl⟩⟩

/-- Witness for C4: the operand-shape theorem evaluated on the toy model at
the operands 5 and 2, together with one concrete agreement instance. -/
theorem mixed_shapes_agree_witness :
    (ToyOps.isFinite (Toy.num 5) = true ∧ ToyOps.isFinite (Toy.num 2) = true) ∧
    (FF.addF (FF.fromFloat ToyOps (Toy.num 5)) (Toy.num 2) =
       FF.add (FF.fromFloat ToyOps (Toy.num 5)) (FF.fromFloat ToyOps (Toy.num 2)) ∧
     floatAddFF (Toy.num 5) (FF.fromFloat ToyOps (Toy.num 2)) =
       FF.add (FF.fromFloat ToyOps (Toy.num 5)) (FF.fromFloat ToyOps (Toy.num 2))) :=
  ⟨⟨by decide, by decide⟩,
   ⟨(mixed_shapes_agree ToyOps (Toy.num 5) (Toy.num 2) (by decide) (by decide)).1.1,
    (mixed_shapes_agree ToyOps (Toy.num 5) (Toy.num 2) (by decide) (by decide)).1.2.1⟩⟩

/-- C9 (amended): assuming the relaxed intrinsics meet their finite-operand
contract, every arithmetic operation of the wrapper - each of the five
operators in all three operand shapes and each combined assignment in both
right-hand-side shapes - is defined whenever both operands are finite.  (On
NaN or infinite operands the unsafe intrinsic call violates its
precondition, so those operations are not total over the full domain; the
non-arithmetic operations fromFloat, get, toFloat, neg, round, beq, pcmp,
default and the formatters are plain total functions.) -/
theorem arith_defined_on_finite (M : FloatOps) (hM : M.FastAgreesOnFinite)
    (a b : M.Carrier) (ha : M.isFinite a = true) (hb : M.isFinite b = true) :
    ((FF.add (FF.fromFloat M a) (FF.fromFloat M b)).isSome = true ∧
     (FF.addF (FF.fromFloat M a) b).isSome = true ∧
     (floatAddFF a (FF.fromFloat M b)).isSome = true ∧
     (FF.add_assignF (FF.fromFloat M a) b).isSome = true ∧
     (FF.add_assign (FF.fromFloat M a) (FF.fromFloat M b)).isSome = true) ∧
    ((FF.sub (FF.fromFloat M a) (FF.fromFloat M b)).isSome = true ∧
     (FF.subF (FF.fromFloat M a) b).isSome = true ∧
     (floatSubFF a (FF.fromFloat M b)).isSome = true ∧
     (FF.sub_assignF (FF.fromFloat M a) b).isSome = true ∧
     (FF.sub_assign (FF.fromFloat M a) (FF.fromFloat M b)).isSome = true) ∧
    ((FF.mul (FF.fromFloat M a) (FF.fromFloat M b)).isSome = true ∧
     (FF.mulF (FF.fromFloat M a) b).isSome = true ∧
     (floatMulFF a (FF.fromFloat M b)).isSome = true ∧
     (FF.mul_assignF (FF.fromFloat M a) b).isSome = true ∧
     (FF.mul_assign (FF.fromFloat M a) (FF.fromFloat M b)).isSome = true) ∧
    ((FF.div (FF.fromFloat M a) (FF.fromFloat M b)).isSome = true ∧
     (FF.divF (FF.fromFloat M a) b).isSome = true ∧
     (floatDivFF a (FF.fromFloat M b)).isSome = true ∧
     (FF.div_assignF (FF.fromFloat M a) b).isSome = true ∧
     (FF.div_assign (FF.fromFloat M a) (FF.fromFloat M b)).isSome = true) ∧
    ((FF.rem (FF.fromFloat M a) (FF.fromFloat M b)).isSome = true ∧
     (FF.remF (FF.fromFloat M a) b).isSome = true ∧
     (floatRemFF a (FF.fromFloat M b)).isSome = true ∧
     (FF.rem_assignF (FF.fromFloat M a) b).isSome = true ∧
     (FF.rem_assign (FF.fromFloat M a) (FF.fromFloat M b)).isSome = true) := by
  obtain ⟨h1, h2, h3, h4, h5⟩ := hM a b ha hb
  refine ⟨⟨?_, ?_, ?_, ?_, ?_⟩, ⟨?_, ?_, ?_, ?_, ?_⟩, ⟨?_, ?_, ?_, ?_, ?_⟩,
    ⟨?_, ?_, ?_, ?_, ?_⟩, ⟨?_, ?_, ?_, ?_, ?_⟩⟩ <;>
    simp [FF.add, FF.addF, floatAddFF, FF.add_assignF, FF.add_assign,
      FF.sub, FF.subF, floatSubFF, FF.sub_assignF, FF.sub_assign,
      FF.mul, FF.mulF, floatMulFF, FF.mul_assignF, FF.mul_assign,
      FF.div, FF.divF, floatDivFF, FF.div_assignF, FF.div_assign,
      FF.rem, FF.remF, floatRemFF, FF.rem_assignF, FF.rem_assign,
      FF.fromFloat, h1, h2, h3, h4, h5]

/-- Witness for the amended C9: definedness evaluated on the toy model at
the finite operands 3 and 4. -/
theorem arith_defined_on_finite_witness :
    (ToyOps.isFinite (Toy.num 3) = true ∧ ToyOps.isFinite (Toy.num 4) = true) ∧
    ((FF.add (FF.fromFloat ToyOps (Toy.num 3)) (FF.fromFloat ToyOps (Toy.num 4))).isSome = true ∧
     (FF.rem_assignF (FF.fromFloat ToyOps (Toy.num 3)) (Toy.num 4)).isSome = true) :=
  ⟨⟨by decide, by decide⟩,
   ⟨(arith_defined_on_finite ToyOps toyFast_agrees (Toy.num 3) (Toy.num 4)
       (by decide) (by decide)).1.1,
    (arith_defined_on_finite ToyOps toyFast_agrees (Toy.num 3) (Toy.num 4)
       (by decide) (by decide)).2.2.2.2.2.2.1⟩⟩

/-- Counterexample to C9 as stated: the binary operators are not total over
the full input domain.  On the toy model of the intrinsic safety contract,
adding the wrapper of NaN to the wrapper of 1 has no defined result (the
unsafe intrinsic call violates its finiteness precondition), and likewise
multiplying the wrapper of 1 by positive infinity. -/
theorem arith_undefined_on_nonfinite :
    FF.add (FF.fromFloat ToyOps Toy.nan) (FF.fromFloat ToyOps (Toy.num 1)) = none ∧
    FF.mulF (FF.fromFloat ToyOps (Toy.num 1)) Toy.pinf = none := by
  decide

/-- C1: the combined-assignment operators do NOT compute the corresponding
binary operator.  The impl_assignop! macro body is *self = *self + rhs for
every operator, so SubAssign, MulAssign, DivAssign and RemAssign all perform
an addition.  Concretely, on the toy model: x = wrap(2); x -= 1 leaves
wrap(3), while wrap(2) - 1 is wrap(1); and the wrapper-rhs forms of -=, *=,
/= and %= all disagree with the corresponding binary operator at (2, 1). -/
theorem subAssign_performs_addition :
    FF.sub_assignF (FF.fromFloat ToyOps (Toy.num 2)) (Toy.num 1) =
      some (FF.fromFloat ToyOps (Toy.num 3)) ∧
    FF.subF (FF.fromFloat ToyOps (Toy.num 2)) (Toy.num 1) =
      some (FF.fromFloat ToyOps (Toy.num 1)) ∧
    FF.sub_assign (FF.fromFloat ToyOps (Toy.num 2)) (FF.fromFloat ToyOps (Toy.num 1)) ≠
      FF.sub (FF.fromFloat ToyOps (Toy.num 2)) (FF.fromFloat ToyOps (Toy.num 1)) ∧
    FF.mul_assign (FF.fromFloat ToyOps (Toy.num 2)) (FF.fromFloat ToyOps (Toy.num 1)) ≠
      FF.mul (FF.fromFloat ToyOps (Toy.num 2)) (FF.fromFloat ToyOps (Toy.num 1)) ∧
    FF.div_assign (FF.fromFloat ToyOps (Toy.num 2)) (FF.fromFloat ToyOps (Toy.num 1)) ≠
      FF.div (FF.fromFloat ToyOps (Toy.num 2)) (FF.fromFloat ToyOps (Toy.num 1)) ∧
    FF.rem_assign (FF.fromFloat ToyOps (Toy.num 2)) (FF.fromFloat ToyOps (Toy.num 1)) ≠
      FF.rem (FF.fromFloat ToyOps (Toy.num 2)) (FF.fromFloat ToyOps (Toy.num 1)) := by
  decide
